import Mathlib

/-!
Verification of the RsaSsaPkcs1VerifyKeyManager
(src/cc/signature/rsa_ssa_pkcs1_verify_key_manager.cc).

The manager validates an RSA-SSA-PKCS1 public key record and, on success,
builds a signature-verification primitive through an external constructor.
Key creation is rejected unconditionally. This file embeds the data model
and the operations of that source file and proves the specified properties.
The helper routines that live elsewhere in the repository (version check,
big-number decoding, modulus-size policy, signature-hash allow-list) are
modelled from the specification, as noted on each definition.
-/

namespace Tink

/-- Modelled from the spec: the SignatureHashAlgorithm enumeration of the
proto HashType (proto/common.pb is not in the excerpt). It has an
unspecified sentinel and the usual SHA family members. -/
inductive HashType where
  | unknownHash
  | sha1
  | sha224
  | sha256
  | sha384
  | sha512
deriving DecidableEq, Repr

/-- The AlgorithmParameters record of the key: RsaSsaPkcs1Params, carrying
the hash choice (field hash_type of the proto message). -/
structure RsaSsaPkcs1Params where
  hash_type : HashType
deriving DecidableEq, Repr

/-- The PublicKeyRecord: RsaSsaPkcs1PublicKey, with version, modulus bytes
n (big-endian, unsigned), public exponent bytes e, and params. -/
structure RsaSsaPkcs1PublicKey where
  version : Nat
  n : List Nat
  e : List Nat
  params : RsaSsaPkcs1Params
deriving DecidableEq, Repr

/-- The error taxonomy of the specification (section 7): kinds of typed
validation failure returned through StatusOr. -/
inductive ValidationError where
  | unsupportedVersion (candidate expected : Nat)
  | malformedModulus
  | insecureModulusSize (bits : Nat)
  | unsupportedHash (h : HashType)
  | primitiveConstructionFailed (diag : String)
  | unsupportedOperation (msg : String)
deriving DecidableEq, Repr

/-- The single supported key version constant kVersion of the manager
(the spec scenario in section 8 fixes it at 0). -/
def kVersion : Nat := 0

/-- Modelled from the spec: ValidateVersion from tink/util/validation
(not in the excerpt). The version must equal the single supported
version; any other value is rejected with UnsupportedVersion. -/
def ValidateVersion (candidate expected : Nat) : Except ValidationError Unit :=
  if candidate = expected then .ok ()
  else .error (.unsupportedVersion candidate expected)

/-- Big-endian unsigned interpretation of a byte sequence, each byte
reduced mod 256. This is the value BN_bin2bn assigns to the bytes. -/
def bytesToNat (bs : List Nat) : Nat :=
  bs.foldl (fun acc b => acc * 256 + b % 256) 0

/-- Modelled from the spec: SubtleUtilBoringSSL::str2bn (not in the
excerpt) interprets the modulus bytes as an unsigned big integer. In the
big-endian byte interpretation every byte sequence decodes, so the parse
step never fails here. -/
def str2bn (bs : List Nat) : Except ValidationError Nat :=
  .ok (bytesToNat bs)

/-- Modelled from the spec: BN_num_bits, the bit-length of the decoded
big integer (0 for the zero value), here Nat.size. -/
def numBits (m : Nat) : Nat := Nat.size m

/-- Modelled from the spec: the policy minimum modulus bit-length, an
externally supplied constant; the spec and its scenario use 2048. -/
def kMinModulusSizeBits : Nat := 2048

/-- Modelled from the spec: SubtleUtilBoringSSL::ValidateRsaModulusSize
(not in the excerpt): the decoded modulus bit-length must reach the
policy minimum, else InsecureModulusSize. -/
def ValidateRsaModulusSize (bits : Nat) : Except ValidationError Unit :=
  if bits < kMinModulusSizeBits then .error (.insecureModulusSize bits)
  else .ok ()

/-- Modelled from the spec: the approved signature-hash allow-list of
SubtleUtilBoringSSL::ValidateSignatureHash (not in the excerpt):
SHA-256, SHA-384 and SHA-512. -/
def approvedHashes : List HashType := [.sha256, .sha384, .sha512]

/-- Modelled from the spec: SubtleUtilBoringSSL::ValidateSignatureHash
(not in the excerpt): succeeds exactly on the approved allow-list,
otherwise UnsupportedHash naming the offending value. The
Enums::ProtoToSubtle conversion applied first in the source is an
injective enum renaming and is folded into the single HashType here. -/
def ValidateSignatureHash (h : HashType) : Except ValidationError Unit :=
  match h with
  | .sha256 => .ok ()
  | .sha384 => .ok ()
  | .sha512 => .ok ()
  | other => .error (.unsupportedHash other)

/-- RsaSsaPkcs1VerifyKeyManager::Validate(RsaSsaPkcs1Params), lines
121-124 of the source: delegate to ValidateSignatureHash on the
converted hash type. -/
def validateParams (params : RsaSsaPkcs1Params) : Except ValidationError Unit :=
  ValidateSignatureHash params.hash_type

/-- RsaSsaPkcs1VerifyKeyManager::Validate(RsaSsaPkcs1PublicKey), lines
127-136 of the source: version check, modulus parse, modulus size check
on the bit-length of the decoded integer, then parameter validation,
short-circuiting at the first failure. -/
def validateKey (key : RsaSsaPkcs1PublicKey) : Except ValidationError Unit :=
  match ValidateVersion key.version kVersion with
  | .error st => .error st
  | .ok () =>
    match str2bn key.n with
    | .error st => .error st
    | .ok nValue =>
      match ValidateRsaModulusSize (numBits nValue) with
      | .error st => .error st
      | .ok () => validateParams key.params

/-- The subtle RsaPublicKey record handed to the external constructor:
modulus and exponent bytes copied from the proto key. -/
structure RsaPublicKey where
  n : List Nat
  e : List Nat
deriving DecidableEq, Repr

/-- The subtle RsaSsaPkcs1Params record handed to the external
constructor: the converted hash type. -/
structure SubtleParams where
  hash_type : HashType
deriving DecidableEq, Repr

/-- RsaSsaPkcs1VerifyKeyManager::GetPrimitiveFromKey, lines 99-118 of the
source, parameterised by the external constructor
subtle::RsaSsaPkcs1VerifyBoringSsl::New (an external collaborator that
either yields a primitive or a diagnostic). Validation runs first; on
its failure that error is returned unchanged and the constructor is
never consulted. A constructor failure is surfaced as
PrimitiveConstructionFailed carrying the underlying diagnostic. -/
def GetPrimitiveFromKey {P : Type}
    (new : RsaPublicKey → SubtleParams → Except String P)
    (key : RsaSsaPkcs1PublicKey) : Except ValidationError P :=
  match validateKey key with
  | .error st => .error st
  | .ok () =>
    match new ⟨key.n, key.e⟩ ⟨key.params.hash_type⟩ with
    | .error diag => .error (.primitiveConstructionFailed diag)
    | .ok p => .ok p

/-- The diagnostic message of the key-creation rejector, lines 61-80 of
the source (the two adjacent C string literals concatenated). -/
def kRejectionMessage : String :=
  "Operation not supported for public keys, please use the RsaSsaPkcs1SignKeyManager."

/-- RsaSsaPkcs1PublicKeyFactory::NewKey on a parsed key format, lines
61-66 of the source: unconditionally UNIMPLEMENTED. The result type is
abstract, so no key object can ever be produced. -/
def factoryNewKey {F M : Type} (key_format : F) : Except ValidationError M :=
  .error (.unsupportedOperation kRejectionMessage)

/-- RsaSsaPkcs1PublicKeyFactory::NewKey on a serialized key format, lines
68-73 of the source: unconditionally UNIMPLEMENTED. -/
def factoryNewKeySerialized {M : Type} (serialized_key_format : List Nat) :
    Except ValidationError M :=
  .error (.unsupportedOperation kRejectionMessage)

/-- RsaSsaPkcs1PublicKeyFactory::NewKeyData, lines 75-80 of the source:
unconditionally UNIMPLEMENTED; no KeyData blob is produced. -/
def factoryNewKeyData {D : Type} (serialized_key_format : List Nat) :
    Except ValidationError D :=
  .error (.unsupportedOperation kRejectionMessage)

/-- Modelled from the spec: the fixed key-type identifier kKeyType of the
manager (declared in the header, not in the excerpt). -/
def kKeyType : String :=
  "type.googleapis.com/google.crypto.tink.RsaSsaPkcs1PublicKey"

/-- RsaSsaPkcs1VerifyKeyManager::get_key_type, lines 89-91 of the source:
returns the fixed key type string. -/
def get_key_type : String := kKeyType

/-- RsaSsaPkcs1VerifyKeyManager::get_version, line 97 of the source:
returns the fixed version constant. -/
def get_version : Nat := kVersion

set_option maxRecDepth 100000

/-! ### Helper lemmas shared by the claim proofs and their witnesses -/

/-- Helper: a wrong version short-circuits validateKey with
UnsupportedVersion. -/
lemma validateKey_wrong_version (key : RsaSsaPkcs1PublicKey)
    (h : key.version ≠ kVersion) :
    validateKey key = .error (.unsupportedVersion key.version kVersion) := by
  unfold validateKey ValidateVersion
  simp [h]

/-- Helper: with the right version, a modulus below the policy bound
short-circuits validateKey with InsecureModulusSize. -/
lemma validateKey_insecure_modulus (key : RsaSsaPkcs1PublicKey)
    (hv : key.version = kVersion)
    (hs : numBits (bytesToNat key.n) < kMinModulusSizeBits) :
    validateKey key = .error (.insecureModulusSize (numBits (bytesToNat key.n))) := by
  unfold validateKey ValidateVersion str2bn ValidateRsaModulusSize
  simp [hv, hs]

/-- Helper: with the right version and an acceptable modulus size,
validateKey returns exactly the result of parameter validation. -/
lemma validateKey_delegates (key : RsaSsaPkcs1PublicKey)
    (hv : key.version = kVersion)
    (hs : ¬ numBits (bytesToNat key.n) < kMinModulusSizeBits) :
    validateKey key = validateParams key.params := by
  unfold validateKey ValidateVersion str2bn ValidateRsaModulusSize
  simp [hv, hs]

/-- Concrete approved parameters used by the witnesses. -/
def goodParams : RsaSsaPkcs1Params := { hash_type := .sha256 }

/-- Concrete 256-byte big-endian modulus with value 2 ^ 2047, hence of bit
length exactly 2048. -/
def goodModulus : List Nat := 128 :: List.replicate 255 0

/-- Concrete valid key used by the witnesses: version 0, 2048-bit modulus,
exponent 65537, hash SHA-256. -/
def goodKey : RsaSsaPkcs1PublicKey :=
  { version := 0, n := goodModulus, e := [1, 0, 1], params := goodParams }

/-- Helper: the concrete modulus decodes to 2 ^ 2047. -/
lemma bytesToNat_goodModulus : bytesToNat goodModulus = 2 ^ 2047 := by decide

/-- Helper: the concrete modulus has bit length 2048. -/
lemma numBits_goodKey_n : numBits (bytesToNat goodKey.n) = 2048 := by
  show numBits (bytesToNat goodModulus) = 2048
  rw [bytesToNat_goodModulus]
  exact Nat.size_pow

/-- Helper: the concrete key passes full validation. -/
lemma validateKey_goodKey : validateKey goodKey = .ok () := by
  rw [validateKey_delegates goodKey rfl (by rw [numBits_goodKey_n]; decide)]
  rfl

/-- Helper: folding the byte accumulator over zero bytes keeps the
accumulated value at zero. -/
lemma foldl_replicate_zero (k : Nat) :
    (List.replicate k 0).foldl (fun acc b => acc * 256 + b % 256) 0 = 0 := by
  induction k with
  | zero => rfl
  | succ k ih => simpa [List.replicate_succ] using ih

/-- Helper: prepending zero bytes does not change the decoded value. -/
lemma bytesToNat_replicate_zero_append (k : Nat) (bs : List Nat) :
    bytesToNat (List.replicate k 0 ++ bs) = bytesToNat bs := by
  unfold bytesToNat
  rw [List.foldl_append, foldl_replicate_zero]

/-! ### Claim theorems -/

/-- C1: GetPrimitiveFromKey runs full key validation first; on a
validation failure it returns exactly that error (for every external
constructor, so the constructor is never consulted) and yields no
primitive; and it yields a primitive exactly when it does not return an
error. -/
theorem getPrimitive_validates_first (P : Type)
    (new : RsaPublicKey → SubtleParams → Except String P)
    (key : RsaSsaPkcs1PublicKey) :
    (∀ st, validateKey key = .error st →
      GetPrimitiveFromKey new key = .error st ∧
      ∀ p, GetPrimitiveFromKey new key ≠ .ok p) ∧
    ((∃ p, GetPrimitiveFromKey new key = .ok p) ↔
      ¬ ∃ st, GetPrimitiveFromKey new key = .error st) := by
  constructor
  · intro st hst
    unfold GetPrimitiveFromKey
    rw [hst]
    exact ⟨rfl, fun p => by simp⟩
  · cases hres : GetPrimitiveFromKey new key with
    | ok p => simp [hres]
    | error st => simp [hres]

/-- Helper witness key with a wrong version. -/
def badVersionKey : RsaSsaPkcs1PublicKey :=
  { version := 1, n := goodModulus, e := [1, 0, 1], params := goodParams }

/-- C1 witness: at the concrete wrong-version key and a constructor that
always succeeds, GetPrimitiveFromKey returns the validation error. -/
theorem getPrimitive_validates_first_witness :
    GetPrimitiveFromKey (fun _ _ => Except.ok (0 : Nat)) badVersionKey =
      .error (.unsupportedVersion 1 kVersion) :=
  ((getPrimitive_validates_first Nat (fun _ _ => Except.ok 0) badVersionKey).1
    (.unsupportedVersion 1 kVersion)
    (validateKey_wrong_version badVersionKey (by decide))).1

/-- C2: every key-creation operation of the factory rejects every input
with UnsupportedOperation and can produce no key object or key data (the
result types are abstract, and the error case excludes any value). -/
theorem factory_rejects_creation (F M M2 D : Type) (key_format : F)
    (serialized : List Nat) :
    @factoryNewKey F M key_format =
      .error (.unsupportedOperation kRejectionMessage) ∧
    @factoryNewKeySerialized M2 serialized =
      .error (.unsupportedOperation kRejectionMessage) ∧
    @factoryNewKeyData D serialized =
      .error (.unsupportedOperation kRejectionMessage) ∧
    (∀ m : M, @factoryNewKey F M key_format ≠ .ok m) ∧
    (∀ m : M2, @factoryNewKeySerialized M2 serialized ≠ .ok m) ∧
    (∀ d : D, @factoryNewKeyData D serialized ≠ .ok d) := by
  refine ⟨rfl, rfl, rfl, ?_, ?_, ?_⟩ <;> intro x <;> simp [factoryNewKey,
    factoryNewKeySerialized, factoryNewKeyData]

/-- C3: any key whose version differs from kVersion is rejected with
UnsupportedVersion, whatever its other fields hold. -/
theorem validateKey_version_gate (key : RsaSsaPkcs1PublicKey)
    (h : key.version ≠ kVersion) :
    validateKey key = .error (.unsupportedVersion key.version kVersion) :=
  validateKey_wrong_version key h

/-- C3 witness: the concrete valid key with its version set to 1 is
rejected with UnsupportedVersion. -/
theorem validateKey_version_gate_witness :
    validateKey badVersionKey = .error (.unsupportedVersion 1 kVersion) :=
  validateKey_version_gate badVersionKey (by decide)

/-- C4: parameter validation succeeds exactly on the approved hash
allow-list, and any value outside it (the unspecified sentinel included)
is rejected with UnsupportedHash naming that value. -/
theorem validateParams_allowlist (params : RsaSsaPkcs1Params) :
    (validateParams params = .ok () ↔ params.hash_type ∈ approvedHashes) ∧
    (params.hash_type ∉ approvedHashes →
      validateParams params = .error (.unsupportedHash params.hash_type)) := by
  cases params with
  | mk h => cases h <;> simp [validateParams, ValidateSignatureHash, approvedHashes]

/-- C4 witness: SHA-256 is accepted; the unspecified sentinel is outside
the allow-list and rejected with UnsupportedHash. -/
theorem validateParams_allowlist_witness :
    validateParams { hash_type := .unknownHash } =
      .error (.unsupportedHash .unknownHash) :=
  (validateParams_allowlist { hash_type := .unknownHash }).2 (by decide)

/-- C5: validateKey checks in the fixed order version, modulus parse,
modulus size, parameters, short-circuiting at the first failure: a wrong
version yields UnsupportedVersion whatever the other fields hold; with
the right version an undersized modulus yields InsecureModulusSize; and
otherwise the result is exactly the parameter-validation result,
propagated unchanged. -/
theorem validateKey_check_order (key : RsaSsaPkcs1PublicKey) :
    (key.version ≠ kVersion →
      validateKey key = .error (.unsupportedVersion key.version kVersion)) ∧
    (key.version = kVersion →
      numBits (bytesToNat key.n) < kMinModulusSizeBits →
      validateKey key =
        .error (.insecureModulusSize (numBits (bytesToNat key.n)))) ∧
    (key.version = kVersion →
      ¬ numBits (bytesToNat key.n) < kMinModulusSizeBits →
      validateKey key = validateParams key.params) :=
  ⟨validateKey_wrong_version key,
   validateKey_insecure_modulus key,
   validateKey_delegates key⟩

/-- C5 witness: at concrete keys, the wrong-version variant fails with
UnsupportedVersion, an empty modulus fails with InsecureModulusSize of
bit length 0, and the fully valid concrete key reduces to its parameter
validation. -/
theorem validateKey_check_order_witness :
    validateKey badVersionKey = .error (.unsupportedVersion 1 kVersion) ∧
    validateKey { badVersionKey with version := 0, n := [] } =
      .error (.insecureModulusSize (numBits (bytesToNat ([] : List Nat)))) ∧
    validateKey goodKey = validateParams goodKey.params :=
  ⟨(validateKey_check_order badVersionKey).1 (by decide),
   (validateKey_check_order { badVersionKey with version := 0, n := [] }).2.1 rfl
     (by rw [show bytesToNat ([] : List Nat) = 0 from rfl, numBits, Nat.size_zero]; decide),
   (validateKey_check_order goodKey).2.2 rfl (by rw [numBits_goodKey_n]; decide)⟩

/-- C6: the modulus size check looks at the bit length of the decoded big
integer, so prepending any number of leading zero bytes to the modulus
leaves the validateKey outcome unchanged. -/
theorem validateKey_leading_zero_invariant (key : RsaSsaPkcs1PublicKey)
    (k : Nat) :
    validateKey { key with n := List.replicate k 0 ++ key.n } =
      validateKey key := by
  cases key with
  | mk v n e p =>
    unfold validateKey str2bn
    simp [bytesToNat_replicate_zero_append]

/-- C7: when the key passes validation but the external constructor fails
with some diagnostic, GetPrimitiveFromKey surfaces exactly
PrimitiveConstructionFailed carrying that diagnostic, and yields no
primitive. -/
theorem getPrimitive_construction_failure (P : Type)
    (new : RsaPublicKey → SubtleParams → Except String P)
    (key : RsaSsaPkcs1PublicKey) (diag : String)
    (hval : validateKey key = .ok ())
    (hnew : new ⟨key.n, key.e⟩ ⟨key.params.hash_type⟩ = .error diag) :
    GetPrimitiveFromKey new key =
      .error (.primitiveConstructionFailed diag) ∧
    ∀ p, GetPrimitiveFromKey new key ≠ .ok p := by
  unfold GetPrimitiveFromKey
  rw [hval, hnew]
  exact ⟨rfl, fun p => by simp⟩

/-- C7 witness: the concrete valid key with a constructor that fails with
a fixed diagnostic produces PrimitiveConstructionFailed carrying it. -/
theorem getPrimitive_construction_failure_witness :
    @GetPrimitiveFromKey Unit (fun _ _ => Except.error "exponent rejected") goodKey =
      .error (.primitiveConstructionFailed "exponent rejected") :=
  (getPrimitive_construction_failure Unit
    (fun _ _ => Except.error "exponent rejected") goodKey "exponent rejected"
    validateKey_goodKey rfl).1

/-- C8: validateKey never inspects the public exponent: changing only
that field never changes the validation result, so no exponent value by
itself causes a failure. -/
theorem validateKey_exponent_irrelevant (key : RsaSsaPkcs1PublicKey)
    (e2 : List Nat) :
    validateKey { key with e := e2 } = validateKey key := rfl

/-- C9: the three key-creation variants return one and the same error,
of kind UnsupportedOperation with the identical diagnostic message, on
every input. -/
theorem factory_variants_identical (F M M2 D : Type) (key_format : F)
    (s1 s2 : List Nat) :
    ∃ err : ValidationError,
      @factoryNewKey F M key_format = .error err ∧
      @factoryNewKeySerialized M2 s1 = .error err ∧
      @factoryNewKeyData D s2 = .error err ∧
      err = .unsupportedOperation kRejectionMessage :=
  ⟨.unsupportedOperation kRejectionMessage, rfl, rfl, rfl, rfl⟩

/-- C10: every operation of the manager is deterministic: equal inputs
give equal outputs for parameter validation, key validation, primitive
construction and the key-creation rejectors, and the key type and
version accessors always return the same fixed constants. (The embedding
is purely functional, so no operation can mutate its input or any
manager state.) -/
theorem manager_deterministic (P F M : Type)
    (new : RsaPublicKey → SubtleParams → Except String P)
    (k1 k2 : RsaSsaPkcs1PublicKey) (p1 p2 : RsaSsaPkcs1Params)
    (f1 f2 : F) (s1 s2 : List Nat)
    (hk : k1 = k2) (hp : p1 = p2) (hf : f1 = f2) (hs : s1 = s2) :
    validateParams p1 = validateParams p2 ∧
    validateKey k1 = validateKey k2 ∧
    GetPrimitiveFromKey new k1 = GetPrimitiveFromKey new k2 ∧
    @factoryNewKey F M f1 = @factoryNewKey F M f2 ∧
    @factoryNewKeySerialized M s1 = @factoryNewKeySerialized M s2 ∧
    @factoryNewKeyData M s1 = @factoryNewKeyData M s2 ∧
    get_key_type = kKeyType ∧
    get_version = kVersion := by
  subst hk; subst hp; subst hf; subst hs
  exact ⟨rfl, rfl, rfl, rfl, rfl, rfl, rfl, rfl⟩

/-- C10 witness: determinism instantiated at the concrete valid key,
its parameters, and concrete factory inputs. -/
theorem manager_deterministic_witness :
    validateParams goodParams = validateParams goodParams ∧
    validateKey goodKey = validateKey goodKey ∧
    GetPrimitiveFromKey (fun _ _ => Except.ok (0 : Nat)) goodKey =
      GetPrimitiveFromKey (fun _ _ => Except.ok 0) goodKey ∧
    @factoryNewKey Nat Nat 7 = @factoryNewKey Nat Nat 7 ∧
    @factoryNewKeySerialized Nat [1] = @factoryNewKeySerialized Nat [1] ∧
    @factoryNewKeyData Nat [1] = @factoryNewKeyData Nat [1] ∧
    get_key_type = kKeyType ∧
    get_version = kVersion :=
  manager_deterministic Nat Nat Nat (fun _ _ => Except.ok 0) goodKey goodKey
    goodParams goodParams 7 7 [1] [1] rfl rfl rfl rfl

end Tink
